import Mathlib

/-!
Shallow embedding of `src/factoryphysics.py` (the Factory Physics
production-line formulas) over exact rational arithmetic.

Python numbers are modelled by `ℚ`; Python's `/`, which raises
`ZeroDivisionError` on a zero divisor, is modelled by `pydiv` returning
`Except`.  Methods whose bodies can divide return `Except PyError ℚ`;
the others are plain functions.  `df_scenarios` builds the table of the
six formula evaluations at the integer WIP levels `1 .. max_wip`, as the
pandas code does with `np.arange(1, max_wip + 1)`.
-/

/-- The arithmetic error Python's `/` raises on a zero divisor. -/
inductive PyError where
  | zeroDivisionError
deriving Repr, DecidableEq

deriving instance DecidableEq for Except

/-- Python division `a / b`: raises `ZeroDivisionError` when `b = 0`. -/
def pydiv (a b : ℚ) : Except PyError ℚ :=
  if b = 0 then .error .zeroDivisionError else .ok (a / b)

/-- The state stored by `ProductionLine.__init__`: the bottleneck rate
`r_b`, the natural process time `T_0`, the derived critical WIP
`W_0 = r_b * T_0`, and the optional name. -/
structure ProductionLine where
  r_b : ℚ
  T_0 : ℚ
  W_0 : ℚ
  _name : Option String
deriving Repr, DecidableEq

/-- `ProductionLine.__init__`: stores `r_b`, `T_0`, computes
`W_0 = r_b * T_0`, stores the name.  The Python code performs no
validation and cannot raise. -/
def ProductionLine.init (r_b T_0 : ℚ) (name : Option String) : ProductionLine :=
  ⟨r_b, T_0, r_b * T_0, name⟩

/-- The `name` property. -/
def ProductionLine.name (self : ProductionLine) : Option String :=
  self._name

/-- `CT_best(w)`: `T_0` if `w <= W_0`, else `w / r_b`. -/
def ProductionLine.CT_best (self : ProductionLine) (w : ℚ) : Except PyError ℚ :=
  if w ≤ self.W_0 then .ok self.T_0 else pydiv w self.r_b

/-- `TH_best(w)`: `w / T_0` if `w <= W_0`, else `r_b`. -/
def ProductionLine.TH_best (self : ProductionLine) (w : ℚ) : Except PyError ℚ :=
  if w ≤ self.W_0 then pydiv w self.T_0 else .ok self.r_b

/-- `CT_worst(w) = w * T_0` (no division: always defined). -/
def ProductionLine.CT_worst (self : ProductionLine) (w : ℚ) : ℚ :=
  w * self.T_0

/-- `TH_worst() = 1 / T_0`. -/
def ProductionLine.TH_worst (self : ProductionLine) : Except PyError ℚ :=
  pydiv 1 self.T_0

/-- `CT_PWC(w) = T_0 + (w - 1) / r_b`. -/
def ProductionLine.CT_PWC (self : ProductionLine) (w : ℚ) : Except PyError ℚ :=
  (pydiv (w - 1) self.r_b).map (fun q => self.T_0 + q)

/-- `TH_PWC(w) = (w / (W_0 + w - 1)) * r_b`. -/
def ProductionLine.TH_PWC (self : ProductionLine) (w : ℚ) : Except PyError ℚ :=
  (pydiv w (self.W_0 + w - 1)).map (fun q => q * self.r_b)

/-- One row of the `df_scenarios` DataFrame: the WIP level and the six
formula columns (`TH Best Case`, `TH Worst Case`,
`TH Practical Worst Case`, `CT Best Case`, `CT Worst Case`,
`CT Practical Worst Case`). -/
structure ScenarioRow where
  WIP : ℤ
  thBest : ℚ
  thWorst : ℚ
  thPWC : ℚ
  ctBest : ℚ
  ctWorst : ℚ
  ctPWC : ℚ
deriving Repr, DecidableEq

/-- The index `np.arange(1, max_wip + 1)`: the integers
`1, 2, ..., max_wip`, empty when `max_wip < 1`. -/
def wipLevels (max_wip : ℤ) : List ℤ :=
  List.map (fun i : ℕ => 1 + (i : ℤ)) (List.range max_wip.toNat)

/-- One row of the table: the per-`w` columns evaluated at WIP level `w`,
with the broadcast scalar `TH_worst` value passed in. -/
def ProductionLine.scenarioRow (self : ProductionLine) (thWorst : ℚ) (w : ℤ) :
    Except PyError ScenarioRow := do
  let thBest ← self.TH_best (w : ℚ)
  let thPWC ← self.TH_PWC (w : ℚ)
  let ctBest ← self.CT_best (w : ℚ)
  let ctPWC ← self.CT_PWC (w : ℚ)
  return ⟨w, thBest, thWorst, thPWC, ctBest, self.CT_worst (w : ℚ), ctPWC⟩

/-- Row-by-row assembly of the table, propagating the first error as the
pandas element-wise `apply` does. -/
def buildRows (self : ProductionLine) (thWorst : ℚ) : List ℤ → Except PyError (List ScenarioRow)
  | [] => .ok []
  | w :: ws => do
      let row ← self.scenarioRow thWorst w
      let rest ← buildRows self thWorst ws
      return row :: rest

/-- `df_scenarios(ProductionLine, max_wip)`: evaluates the scalar
`TH_worst()` and the six columns over the WIP levels `1 .. max_wip`. -/
def df_scenarios (self : ProductionLine) (max_wip : ℤ) : Except PyError (List ScenarioRow) := do
  let thWorst ← self.TH_worst
  buildRows self thWorst (wipLevels max_wip)

/-- Python division returns `a / b` whenever the divisor is nonzero. -/
lemma pydiv_ok (a b : ℚ) (hb : b ≠ 0) : pydiv a b = .ok (a / b) := by
  simp [pydiv, hb]

/-- Every `ProductionLine` built by `init` satisfies the stored-field
invariant `W_0 = r_b * T_0`. -/
lemma init_invariant (r_b T_0 : ℚ) (nm : Option String) :
    (ProductionLine.init r_b T_0 nm).W_0 =
      (ProductionLine.init r_b T_0 nm).r_b * (ProductionLine.init r_b T_0 nm).T_0 := rfl

example : (ProductionLine.init (1/2) 10 none).CT_best 3 = .ok 10 := by
  norm_num [ProductionLine.init, ProductionLine.CT_best, pydiv]
example : (ProductionLine.init (1/2) 10 none).CT_best 8 = .ok 16 := by
  norm_num [ProductionLine.init, ProductionLine.CT_best, pydiv]
example : (ProductionLine.init (1/2) 10 none).TH_worst = .ok (1/10) := by
  norm_num [ProductionLine.init, ProductionLine.TH_worst, pydiv]
example : (ProductionLine.init (1/2) 10 none).CT_PWC 5 = .ok 18 := by
  norm_num [ProductionLine.init, ProductionLine.CT_PWC, pydiv, Except.map]
example : (ProductionLine.init (1/2) 10 none).TH_PWC 5 = .ok (5/18) := by
  norm_num [ProductionLine.init, ProductionLine.TH_PWC, pydiv, Except.map]
example : (ProductionLine.init (1/2) 1 none).TH_PWC (1/2) = .error .zeroDivisionError := by
  norm_num [ProductionLine.init, ProductionLine.TH_PWC, pydiv, Except.map]
example : df_scenarios (ProductionLine.init (1/2) 10 none) 0 = .ok [] := by
  norm_num [df_scenarios, ProductionLine.init, ProductionLine.TH_worst, pydiv, wipLevels,
    buildRows, Except.bind, bind]
example : (df_scenarios (ProductionLine.init (1/2) 10 none) 2).map (·.length) = .ok 2 := by
  norm_num [df_scenarios, ProductionLine.init, ProductionLine.TH_worst, ProductionLine.TH_best,
    ProductionLine.TH_PWC, ProductionLine.CT_best, ProductionLine.CT_worst, ProductionLine.CT_PWC,
    ProductionLine.scenarioRow, pydiv, wipLevels, buildRows, Except.bind, bind, Except.map,
    pure, Except.pure, List.range_succ]

/-- C1: for every line with `r_b > 0` and `T_0 > 0` and every `w > 0`,
`CT_best` returns `T_0` when `w ≤ W_0` and `w / r_b` when `w > W_0`, and
`TH_best` returns `w / T_0` when `w ≤ W_0` and `r_b` when `w > W_0`. -/
theorem CT_best_TH_best_piecewise (L : ProductionLine)
    (hW : L.W_0 = L.r_b * L.T_0) (hr : 0 < L.r_b) (hT : 0 < L.T_0)
    (w : ℚ) (hw : 0 < w) :
    (w ≤ L.W_0 → L.CT_best w = .ok L.T_0 ∧ L.TH_best w = .ok (w / L.T_0)) ∧
    (L.W_0 < w → L.CT_best w = .ok (w / L.r_b) ∧ L.TH_best w = .ok L.r_b) := by
  constructor
  · intro hle
    rw [ProductionLine.CT_best, ProductionLine.TH_best, if_pos hle, if_pos hle,
      pydiv_ok _ _ (ne_of_gt hT)]
    exact ⟨rfl, rfl⟩
  · intro hgt
    rw [ProductionLine.CT_best, ProductionLine.TH_best, if_neg (not_le.mpr hgt),
      if_neg (not_le.mpr hgt), pydiv_ok _ _ (ne_of_gt hr)]
    exact ⟨rfl, rfl⟩

/-- Witness for C1 at `r_b = 1/2`, `T_0 = 10`, `w = 3` (so `w ≤ W_0 = 5`). -/
theorem CT_best_TH_best_piecewise_witness :
    (ProductionLine.init (1/2) 10 none).CT_best 3 = .ok 10 ∧
    (ProductionLine.init (1/2) 10 none).TH_best 3 = .ok (3 / 10) :=
  (CT_best_TH_best_piecewise (ProductionLine.init (1/2) 10 none) rfl
    (by norm_num [ProductionLine.init]) (by norm_num [ProductionLine.init]) 3
    (by norm_num)).1 (by norm_num [ProductionLine.init])

/-- C2 counterexample: with `r_b = 1/2 > 0`, `T_0 = 1 > 0` (so `W_0 = 1/2`)
and `w = 1/2 > 0`, `TH_PWC` does not return the claimed value
`(w / (W_0 + w - 1)) * r_b`: its denominator is zero and it raises
`ZeroDivisionError`. -/
theorem TH_PWC_formula_cex :
    (0:ℚ) < 1/2 ∧ (0:ℚ) < 1 ∧ (0:ℚ) < 1/2 ∧
    ¬ (ProductionLine.init (1/2) 1 none).TH_PWC (1/2) =
        .ok ((1/2) / ((ProductionLine.init (1/2) 1 none).W_0 + (1/2) - 1) * (1/2)) := by
  refine ⟨by norm_num, by norm_num, by norm_num, ?_⟩
  have herr : (ProductionLine.init (1/2) 1 none).TH_PWC (1/2) = .error .zeroDivisionError := by
    norm_num [ProductionLine.init, ProductionLine.TH_PWC, pydiv, Except.map]
  rw [herr]
  exact fun h => Except.noConfusion h

/-- C2 amended: for every line with `r_b > 0`, `T_0 > 0` and every `w > 0`,
`CT_worst w = w * T_0`, `TH_worst = 1 / T_0`,
`CT_PWC w = T_0 + (w - 1) / r_b`, and — whenever the denominator
`W_0 + w - 1` is nonzero — `TH_PWC w = (w / (W_0 + w - 1)) * r_b`;
in particular, at `r_b = 1/2`, `T_0 = 10`: `CT_best 3 = 10`,
`CT_best 8 = 16`, `TH_worst = 1/10`, `CT_PWC 5 = 18`,
`TH_PWC 5 = 5/18`. -/
theorem worst_and_pwc_formulas (L : ProductionLine)
    (hW : L.W_0 = L.r_b * L.T_0) (hr : 0 < L.r_b) (hT : 0 < L.T_0)
    (w : ℚ) (hw : 0 < w) :
    L.CT_worst w = w * L.T_0 ∧
    L.TH_worst = .ok (1 / L.T_0) ∧
    L.CT_PWC w = .ok (L.T_0 + (w - 1) / L.r_b) ∧
    (L.W_0 + w - 1 ≠ 0 → L.TH_PWC w = .ok ((w / (L.W_0 + w - 1)) * L.r_b)) ∧
    (ProductionLine.init (1/2) 10 none).CT_best 3 = .ok 10 ∧
    (ProductionLine.init (1/2) 10 none).CT_best 8 = .ok 16 ∧
    (ProductionLine.init (1/2) 10 none).TH_worst = .ok (1/10) ∧
    (ProductionLine.init (1/2) 10 none).CT_PWC 5 = .ok 18 ∧
    (ProductionLine.init (1/2) 10 none).TH_PWC 5 = .ok (5/18) := by
  refine ⟨rfl, ?_, ?_, ?_, ?_, ?_, ?_, ?_, ?_⟩
  · rw [ProductionLine.TH_worst, pydiv_ok _ _ (ne_of_gt hT)]
  · rw [ProductionLine.CT_PWC, pydiv_ok _ _ (ne_of_gt hr)]
    rfl
  · intro hden
    rw [ProductionLine.TH_PWC, pydiv_ok _ _ hden]
    rfl
  · norm_num [ProductionLine.init, ProductionLine.CT_best, pydiv]
  · norm_num [ProductionLine.init, ProductionLine.CT_best, pydiv]
  · norm_num [ProductionLine.init, ProductionLine.TH_worst, pydiv]
  · norm_num [ProductionLine.init, ProductionLine.CT_PWC, pydiv, Except.map]
  · norm_num [ProductionLine.init, ProductionLine.TH_PWC, pydiv, Except.map]

/-- Witness for amended C2 at `r_b = 1/2`, `T_0 = 10`, `w = 5`. -/
theorem worst_and_pwc_formulas_witness :
    (ProductionLine.init (1/2) 10 none).CT_worst 5 = 5 * 10 ∧
    (ProductionLine.init (1/2) 10 none).TH_worst = .ok (1 / 10) ∧
    (ProductionLine.init (1/2) 10 none).CT_PWC 5 = .ok (10 + (5 - 1) / (1/2)) := by
  have h := worst_and_pwc_formulas (ProductionLine.init (1/2) 10 none) rfl
    (by norm_num [ProductionLine.init]) (by norm_num [ProductionLine.init]) 5 (by norm_num)
  exact ⟨h.1, h.2.1, h.2.2.1⟩

/-- C5 counterexample: constructing with `bottleneckRate = 0` (and with
negative parameters) succeeds and returns a `ProductionLine` value — the
constructor performs no validation and has no error path, so no
`InvalidParameterError` is raised. -/
theorem init_no_validation_cex :
    ProductionLine.init 0 10 none = ⟨0, 10, 0, none⟩ ∧
    ProductionLine.init (-1) (-2) none = ⟨-1, -2, 2, none⟩ := by
  constructor <;> · rw [ProductionLine.init]; norm_num

/-- C5 amended: construction never fails — for all parameters (zero and
negative included) it succeeds and stores `r_b`, `T_0`,
`criticalWIP = r_b * T_0`, and the name. -/
theorem init_stores_fields (r_b T_0 : ℚ) (nm : Option String) :
    (ProductionLine.init r_b T_0 nm).r_b = r_b ∧
    (ProductionLine.init r_b T_0 nm).T_0 = T_0 ∧
    (ProductionLine.init r_b T_0 nm).W_0 = r_b * T_0 ∧
    (ProductionLine.init r_b T_0 nm).name = nm :=
  ⟨rfl, rfl, rfl, rfl⟩

/-- C6 counterexample: on the line `r_b = 1/2`, `T_0 = 10`, calls with
`w ≤ 0` return values instead of raising (`CT_best 0 = 10`,
`TH_best (-1) = -1/10`), and `df_scenarios` with `max_wip = 0` returns an
empty table instead of raising. -/
theorem no_domain_checks_cex :
    (ProductionLine.init (1/2) 10 none).CT_best 0 = .ok 10 ∧
    (ProductionLine.init (1/2) 10 none).TH_best (-1) = .ok (-(1/10)) ∧
    df_scenarios (ProductionLine.init (1/2) 10 none) 0 = .ok [] := by
  refine ⟨?_, ?_, ?_⟩
  · norm_num [ProductionLine.init, ProductionLine.CT_best, pydiv]
  · norm_num [ProductionLine.init, ProductionLine.TH_best, pydiv]
  · norm_num [df_scenarios, ProductionLine.init, ProductionLine.TH_worst, pydiv, wipLevels,
      buildRows, Except.bind, bind]

/-- C6 amended: no per-call domain checks exist.  For every line with
`r_b > 0`, `T_0 > 0`, every `w ≤ 0` and every `max_wip < 1`: the
WIP-taking formulas return their formula values without error
(`TH_PWC` still requiring its denominator `W_0 + w - 1` to be nonzero),
and `df_scenarios` returns an empty table. -/
theorem no_domain_checks (L : ProductionLine)
    (hW : L.W_0 = L.r_b * L.T_0) (hr : 0 < L.r_b) (hT : 0 < L.T_0)
    (w : ℚ) (hw : w ≤ 0) (m : ℤ) (hm : m < 1) :
    L.CT_best w = .ok L.T_0 ∧
    L.TH_best w = .ok (w / L.T_0) ∧
    L.CT_worst w = w * L.T_0 ∧
    L.CT_PWC w = .ok (L.T_0 + (w - 1) / L.r_b) ∧
    (L.W_0 + w - 1 ≠ 0 → L.TH_PWC w = .ok ((w / (L.W_0 + w - 1)) * L.r_b)) ∧
    df_scenarios L m = .ok [] := by
  have hWpos : 0 < L.W_0 := hW ▸ mul_pos hr hT
  have hle : w ≤ L.W_0 := hw.trans hWpos.le
  refine ⟨?_, ?_, rfl, ?_, ?_, ?_⟩
  · rw [ProductionLine.CT_best, if_pos hle]
  · rw [ProductionLine.TH_best, if_pos hle, pydiv_ok _ _ (ne_of_gt hT)]
  · rw [ProductionLine.CT_PWC, pydiv_ok _ _ (ne_of_gt hr)]
    rfl
  · intro hden
    rw [ProductionLine.TH_PWC, pydiv_ok _ _ hden]
    rfl
  · have hnat : m.toNat = 0 := Int.toNat_of_nonpos (by omega)
    rw [df_scenarios, ProductionLine.TH_worst, pydiv_ok _ _ (ne_of_gt hT)]
    simp [wipLevels, hnat, buildRows, Except.bind, bind]

/-- Witness for amended C6 at `r_b = 1/2`, `T_0 = 10`, `w = 0`,
`max_wip = 0`. -/
theorem no_domain_checks_witness :
    (ProductionLine.init (1/2) 10 none).CT_best 0 = .ok 10 ∧
    df_scenarios (ProductionLine.init (1/2) 10 none) 0 = .ok [] := by
  have h := no_domain_checks (ProductionLine.init (1/2) 10 none) rfl
    (by norm_num [ProductionLine.init]) (by norm_num [ProductionLine.init]) 0
    (by norm_num) 0 (by norm_num)
  exact ⟨h.1, h.2.2.2.2.2⟩

/-- C7 counterexample: with `r_b = 1/2 > 0`, `T_0 = 1 > 0` and
`w = 1/2 > 0`, the `TH_PWC` denominator `W_0 + w - 1` IS zero, and the
call raises `ZeroDivisionError` — the claimed totality fails on the valid
domain. -/
theorem TH_PWC_denominator_zero_cex :
    (0:ℚ) < 1/2 ∧ (0:ℚ) < 1 ∧ (0:ℚ) < 1/2 ∧
    (ProductionLine.init (1/2) 1 none).W_0 + 1/2 - 1 = 0 ∧
    (ProductionLine.init (1/2) 1 none).TH_PWC (1/2) = .error .zeroDivisionError := by
  refine ⟨by norm_num, by norm_num, by norm_num, ?_, ?_⟩
  · norm_num [ProductionLine.init]
  · norm_num [ProductionLine.init, ProductionLine.TH_PWC, pydiv, Except.map]

/-- C7 amended: for every line with `r_b > 0`, `T_0 > 0` and every
`w > 0` with `W_0 + w ≠ 1`, every formula evaluation is defined — no
division by zero occurs in any of the six operations.  (When
`W_0 + w = 1`, possible only for `0 < w < 1` on lines with `W_0 < 1`,
the `TH_PWC` denominator vanishes and the call raises.) -/
theorem totality_on_domain (L : ProductionLine)
    (hW : L.W_0 = L.r_b * L.T_0) (hr : 0 < L.r_b) (hT : 0 < L.T_0)
    (w : ℚ) (hw : 0 < w) (hden : L.W_0 + w ≠ 1) :
    (L.W_0 + w - 1 ≠ 0) ∧
    (∃ a, L.CT_best w = .ok a) ∧
    (∃ b, L.TH_best w = .ok b) ∧
    (∃ c, L.TH_worst = .ok c) ∧
    (∃ d, L.CT_PWC w = .ok d) ∧
    (∃ e, L.TH_PWC w = .ok e) := by
  have hden' : L.W_0 + w - 1 ≠ 0 := fun h => hden (by linarith)
  refine ⟨hden', ?_, ?_, ?_, ?_, ?_⟩
  · rw [ProductionLine.CT_best]
    split
    · exact ⟨L.T_0, rfl⟩
    · exact ⟨w / L.r_b, pydiv_ok _ _ (ne_of_gt hr)⟩
  · rw [ProductionLine.TH_best]
    split
    · exact ⟨w / L.T_0, pydiv_ok _ _ (ne_of_gt hT)⟩
    · exact ⟨L.r_b, rfl⟩
  · exact ⟨1 / L.T_0, by rw [ProductionLine.TH_worst, pydiv_ok _ _ (ne_of_gt hT)]⟩
  · exact ⟨L.T_0 + (w - 1) / L.r_b,
      by rw [ProductionLine.CT_PWC, pydiv_ok _ _ (ne_of_gt hr)]; rfl⟩
  · exact ⟨w / (L.W_0 + w - 1) * L.r_b,
      by rw [ProductionLine.TH_PWC, pydiv_ok _ _ hden']; rfl⟩

/-- Witness for amended C7 at `r_b = 1/2`, `T_0 = 10`, `w = 3`. -/
theorem totality_on_domain_witness :
    ((ProductionLine.init (1/2) 10 none).W_0 + 3 - 1 ≠ 0) ∧
    (∃ a, (ProductionLine.init (1/2) 10 none).CT_best 3 = .ok a) ∧
    (∃ b, (ProductionLine.init (1/2) 10 none).TH_best 3 = .ok b) ∧
    (∃ c, (ProductionLine.init (1/2) 10 none).TH_worst = .ok c) ∧
    (∃ d, (ProductionLine.init (1/2) 10 none).CT_PWC 3 = .ok d) ∧
    (∃ e, (ProductionLine.init (1/2) 10 none).TH_PWC 3 = .ok e) :=
  totality_on_domain (ProductionLine.init (1/2) 10 none) rfl
    (by norm_num [ProductionLine.init]) (by norm_num [ProductionLine.init]) 3
    (by norm_num) (by norm_num [ProductionLine.init])

/-- C8: continuity at the critical WIP — at `w = W_0` the taken branch
and the other branch's formula agree for both `CT_best`
(`T_0 = W_0 / r_b`) and `TH_best` (`W_0 / T_0 = r_b`). -/
theorem continuity_at_critical_WIP (L : ProductionLine)
    (hW : L.W_0 = L.r_b * L.T_0) (hr : 0 < L.r_b) (hT : 0 < L.T_0) :
    L.CT_best L.W_0 = .ok L.T_0 ∧ pydiv L.W_0 L.r_b = .ok L.T_0 ∧
    L.TH_best L.W_0 = .ok L.r_b ∧ pydiv L.W_0 L.T_0 = .ok L.r_b := by
  have h1 : L.W_0 / L.r_b = L.T_0 := by
    rw [hW, mul_comm, mul_div_assoc, div_self (ne_of_gt hr), mul_one]
  have h2 : L.W_0 / L.T_0 = L.r_b := by
    rw [hW, mul_div_assoc, div_self (ne_of_gt hT), mul_one]
  refine ⟨?_, ?_, ?_, ?_⟩
  · rw [ProductionLine.CT_best, if_pos le_rfl]
  · rw [pydiv_ok _ _ (ne_of_gt hr), h1]
  · rw [ProductionLine.TH_best, if_pos le_rfl, pydiv_ok _ _ (ne_of_gt hT), h2]
  · rw [pydiv_ok _ _ (ne_of_gt hT), h2]

/-- Witness for C8 at `r_b = 1/2`, `T_0 = 10` (so `W_0 = 5`). -/
theorem continuity_at_critical_WIP_witness :
    (ProductionLine.init (1/2) 10 none).CT_best (ProductionLine.init (1/2) 10 none).W_0 =
      .ok 10 ∧
    (ProductionLine.init (1/2) 10 none).TH_best (ProductionLine.init (1/2) 10 none).W_0 =
      .ok (1/2) := by
  have h := continuity_at_critical_WIP (ProductionLine.init (1/2) 10 none) rfl
    (by norm_num [ProductionLine.init]) (by norm_num [ProductionLine.init])
  exact ⟨h.1, h.2.2.1⟩

/-- C10: the practical-worst-case curves meet the other regimes at WIP
level 1: `TH_PWC 1 = 1 / T_0 = TH_worst` and `CT_PWC 1 = T_0`. -/
theorem pwc_meets_other_regimes_at_one (L : ProductionLine)
    (hW : L.W_0 = L.r_b * L.T_0) (hr : 0 < L.r_b) (hT : 0 < L.T_0) :
    L.TH_PWC 1 = .ok (1 / L.T_0) ∧
    L.TH_worst = .ok (1 / L.T_0) ∧
    L.CT_PWC 1 = .ok L.T_0 := by
  have hW0 : L.W_0 ≠ 0 := hW ▸ (mul_pos hr hT).ne.symm
  refine ⟨?_, ?_, ?_⟩
  · have hd : L.W_0 + 1 - 1 = L.W_0 := by ring
    rw [ProductionLine.TH_PWC, hd, pydiv_ok _ _ hW0, Except.map]
    have : 1 / L.W_0 * L.r_b = 1 / L.T_0 := by
      rw [hW]
      field_simp
    rw [this]
  · rw [ProductionLine.TH_worst, pydiv_ok _ _ (ne_of_gt hT)]
  · rw [ProductionLine.CT_PWC, pydiv_ok _ _ (ne_of_gt hr)]
    norm_num [Except.map]

/-- Witness for C10 at `r_b = 1/2`, `T_0 = 10`. -/
theorem pwc_meets_other_regimes_at_one_witness :
    (ProductionLine.init (1/2) 10 none).TH_PWC 1 = .ok (1 / 10) ∧
    (ProductionLine.init (1/2) 10 none).TH_worst = .ok (1 / 10) ∧
    (ProductionLine.init (1/2) 10 none).CT_PWC 1 = .ok 10 :=
  pwc_meets_other_regimes_at_one (ProductionLine.init (1/2) 10 none) rfl
    (by norm_num [ProductionLine.init]) (by norm_num [ProductionLine.init])

/-- `TH_best` with a nonzero `T_0` returns the piecewise value. -/
lemma TH_best_ok (L : ProductionLine) (w : ℚ) (hT : L.T_0 ≠ 0) :
    L.TH_best w = .ok (if w ≤ L.W_0 then w / L.T_0 else L.r_b) := by
  rw [ProductionLine.TH_best]
  split
  · rw [pydiv_ok _ _ hT]
  · rfl

/-- `CT_best` with a nonzero `r_b` returns the piecewise value. -/
lemma CT_best_ok (L : ProductionLine) (w : ℚ) (hr : L.r_b ≠ 0) :
    L.CT_best w = .ok (if w ≤ L.W_0 then L.T_0 else w / L.r_b) := by
  rw [ProductionLine.CT_best]
  split
  · rfl
  · rw [pydiv_ok _ _ hr]

/-- `CT_PWC` with a nonzero `r_b` returns its formula value. -/
lemma CT_PWC_ok (L : ProductionLine) (w : ℚ) (hr : L.r_b ≠ 0) :
    L.CT_PWC w = .ok (L.T_0 + (w - 1) / L.r_b) := by
  rw [ProductionLine.CT_PWC, pydiv_ok _ _ hr]
  rfl

/-- `TH_PWC` with a nonzero denominator returns its formula value. -/
lemma TH_PWC_ok (L : ProductionLine) (w : ℚ) (hden : L.W_0 + w - 1 ≠ 0) :
    L.TH_PWC w = .ok (w / (L.W_0 + w - 1) * L.r_b) := by
  rw [ProductionLine.TH_PWC, pydiv_ok _ _ hden]
  rfl

/-- A successful `TH_best` call took one of the two branches. -/
lemma TH_best_branch (L : ProductionLine) (w t : ℚ) (hT : L.T_0 ≠ 0)
    (h : L.TH_best w = .ok t) :
    (w ≤ L.W_0 ∧ t = w / L.T_0) ∨ (L.W_0 < w ∧ t = L.r_b) := by
  rw [TH_best_ok L w hT] at h
  by_cases hle : w ≤ L.W_0
  · rw [if_pos hle] at h
    exact Or.inl ⟨hle, (Except.ok.inj h).symm⟩
  · rw [if_neg hle] at h
    exact Or.inr ⟨not_le.mp hle, (Except.ok.inj h).symm⟩

/-- C4 counterexample: with `r_b = 1/2 > 0`, `T_0 = 1 > 0` and
`w = 1/2 > 0`, no throughput value exists for the practical-worst-case
regime — `TH_PWC` raises `ZeroDivisionError` — so the Little's-Law
product `TH_PWC(w) * CT_PWC(w) = w` fails there. -/
theorem littles_law_pwc_cex :
    (0:ℚ) < 1/2 ∧ (0:ℚ) < 1 ∧ (0:ℚ) < 1/2 ∧
    ¬ ∃ th ct, (ProductionLine.init (1/2) 1 none).TH_PWC (1/2) = .ok th ∧
        (ProductionLine.init (1/2) 1 none).CT_PWC (1/2) = .ok ct ∧ th * ct = 1/2 := by
  refine ⟨by norm_num, by norm_num, by norm_num, ?_⟩
  rintro ⟨th, ct, hth, -, -⟩
  rw [show (ProductionLine.init (1/2) 1 none).TH_PWC (1/2) = .error .zeroDivisionError from by
    norm_num [ProductionLine.init, ProductionLine.TH_PWC, pydiv, Except.map]] at hth
  exact Except.noConfusion hth

/-- C4 amended: Little's Law `TH * CT = w` holds exactly for the best and
worst regimes at every `w > 0`, and for the practical-worst-case regime
at every `w > 0` whose `TH_PWC` denominator `W_0 + w - 1` is nonzero (in
particular at every `w ≥ 1`); at `W_0 + w = 1` the `TH_PWC` call raises
and no product exists. -/
theorem littles_law (L : ProductionLine)
    (hW : L.W_0 = L.r_b * L.T_0) (hr : 0 < L.r_b) (hT : 0 < L.T_0)
    (w : ℚ) (hw : 0 < w) :
    (∃ th ct, L.TH_best w = .ok th ∧ L.CT_best w = .ok ct ∧ th * ct = w) ∧
    (∃ th, L.TH_worst = .ok th ∧ th * L.CT_worst w = w) ∧
    (L.W_0 + w - 1 ≠ 0 →
      ∃ th ct, L.TH_PWC w = .ok th ∧ L.CT_PWC w = .ok ct ∧ th * ct = w) := by
  refine ⟨?_, ?_, ?_⟩
  · refine ⟨_, _, TH_best_ok L w (ne_of_gt hT), CT_best_ok L w (ne_of_gt hr), ?_⟩
    by_cases hle : w ≤ L.W_0
    · rw [if_pos hle, if_pos hle, div_mul_cancel₀ _ (ne_of_gt hT)]
    · rw [if_neg hle, if_neg hle, mul_comm, div_mul_cancel₀ _ (ne_of_gt hr)]
  · refine ⟨1 / L.T_0, by rw [ProductionLine.TH_worst, pydiv_ok _ _ (ne_of_gt hT)], ?_⟩
    rw [ProductionLine.CT_worst]
    field_simp
  · intro hden
    refine ⟨_, _, TH_PWC_ok L w hden, CT_PWC_ok L w (ne_of_gt hr), ?_⟩
    have hd : L.W_0 + w - 1 = L.r_b * L.T_0 + w - 1 := by rw [hW]
    rw [hd] at hden ⊢
    field_simp
    ring

/-- Witness for amended C4 at `r_b = 1/2`, `T_0 = 10`, `w = 3`. -/
theorem littles_law_witness :
    (∃ th ct, (ProductionLine.init (1/2) 10 none).TH_best 3 = .ok th ∧
      (ProductionLine.init (1/2) 10 none).CT_best 3 = .ok ct ∧ th * ct = 3) ∧
    (∃ th, (ProductionLine.init (1/2) 10 none).TH_worst = .ok th ∧
      th * (ProductionLine.init (1/2) 10 none).CT_worst 3 = 3) ∧
    ((ProductionLine.init (1/2) 10 none).W_0 + 3 - 1 ≠ 0 →
      ∃ th ct, (ProductionLine.init (1/2) 10 none).TH_PWC 3 = .ok th ∧
        (ProductionLine.init (1/2) 10 none).CT_PWC 3 = .ok ct ∧ th * ct = 3) :=
  littles_law (ProductionLine.init (1/2) 10 none) rfl
    (by norm_num [ProductionLine.init]) (by norm_num [ProductionLine.init]) 3 (by norm_num)

/-- C9: for a fixed valid line, `CT_worst` and `CT_PWC` are strictly
increasing in `w` over `w > 0`, and `TH_best` is non-decreasing in `w`
and bounded above by `r_b` over `w > 0`. -/
theorem monotonicity (L : ProductionLine)
    (hW : L.W_0 = L.r_b * L.T_0) (hr : 0 < L.r_b) (hT : 0 < L.T_0)
    (w1 w2 w : ℚ) (hw1 : 0 < w1) (h12 : w1 < w2) (hw : 0 < w) :
    L.CT_worst w1 < L.CT_worst w2 ∧
    (∀ c1 c2, L.CT_PWC w1 = .ok c1 → L.CT_PWC w2 = .ok c2 → c1 < c2) ∧
    (∀ t1 t2, L.TH_best w1 = .ok t1 → L.TH_best w2 = .ok t2 → t1 ≤ t2) ∧
    (∀ t, L.TH_best w = .ok t → t ≤ L.r_b) := by
  have hW0T : L.W_0 / L.T_0 = L.r_b := by
    rw [hW, mul_div_assoc, div_self (ne_of_gt hT), mul_one]
  have hbound : ∀ v t, L.TH_best v = .ok t → t ≤ L.r_b := by
    intro v t h
    rcases TH_best_branch L v t (ne_of_gt hT) h with ⟨hle, ht⟩ | ⟨-, ht⟩
    · rw [ht, ← hW0T]
      exact (div_le_div_iff_of_pos_right hT).mpr hle
    · rw [ht]
  refine ⟨?_, ?_, ?_, fun t h => hbound w t h⟩
  · exact mul_lt_mul_of_pos_right h12 hT
  · intro c1 c2 h1 h2
    rw [CT_PWC_ok L w1 (ne_of_gt hr)] at h1
    rw [CT_PWC_ok L w2 (ne_of_gt hr)] at h2
    rw [← Except.ok.inj h1, ← Except.ok.inj h2]
    have : (w1 - 1) / L.r_b < (w2 - 1) / L.r_b :=
      (div_lt_div_iff_of_pos_right hr).mpr (by linarith)
    linarith
  · intro t1 t2 h1 h2
    rcases TH_best_branch L w1 t1 (ne_of_gt hT) h1 with ⟨hle1, ht1⟩ | ⟨hgt1, ht1⟩
    · rcases TH_best_branch L w2 t2 (ne_of_gt hT) h2 with ⟨-, ht2⟩ | ⟨-, ht2⟩
      · rw [ht1, ht2]
        exact (div_le_div_iff_of_pos_right hT).mpr h12.le
      · rw [ht2]
        exact hbound w1 t1 h1
    · rcases TH_best_branch L w2 t2 (ne_of_gt hT) h2 with ⟨hle2, -⟩ | ⟨-, ht2⟩
      · linarith
      · rw [ht1, ht2]

/-- Witness for C9 at `r_b = 1/2`, `T_0 = 10`, `w1 = 2`, `w2 = 7`,
`w = 3`. -/
theorem monotonicity_witness :
    (ProductionLine.init (1/2) 10 none).CT_worst 2 <
      (ProductionLine.init (1/2) 10 none).CT_worst 7 ∧
    (∀ c1 c2, (ProductionLine.init (1/2) 10 none).CT_PWC 2 = .ok c1 →
      (ProductionLine.init (1/2) 10 none).CT_PWC 7 = .ok c2 → c1 < c2) ∧
    (∀ t1 t2, (ProductionLine.init (1/2) 10 none).TH_best 2 = .ok t1 →
      (ProductionLine.init (1/2) 10 none).TH_best 7 = .ok t2 → t1 ≤ t2) ∧
    (∀ t, (ProductionLine.init (1/2) 10 none).TH_best 3 = .ok t →
      t ≤ (ProductionLine.init (1/2) 10 none).r_b) :=
  monotonicity (ProductionLine.init (1/2) 10 none) rfl
    (by norm_num [ProductionLine.init]) (by norm_num [ProductionLine.init])
    2 7 3 (by norm_num) (by norm_num) (by norm_num)

/-- The pure row value produced at WIP level `w` when every division is
defined: the six formula values with total rational division. -/
def rowVal (L : ProductionLine) (tw : ℚ) (w : ℤ) : ScenarioRow :=
  ⟨w,
    if (w:ℚ) ≤ L.W_0 then (w:ℚ) / L.T_0 else L.r_b,
    tw,
    (w:ℚ) / (L.W_0 + (w:ℚ) - 1) * L.r_b,
    if (w:ℚ) ≤ L.W_0 then L.T_0 else (w:ℚ) / L.r_b,
    (w:ℚ) * L.T_0,
    L.T_0 + ((w:ℚ) - 1) / L.r_b⟩

/-- When no divisor vanishes, `scenarioRow` succeeds with `rowVal`. -/
lemma scenarioRow_ok (L : ProductionLine) (tw : ℚ) (w : ℤ)
    (hr : L.r_b ≠ 0) (hT : L.T_0 ≠ 0) (hden : L.W_0 + (w:ℚ) - 1 ≠ 0) :
    L.scenarioRow tw w = .ok (rowVal L tw w) := by
  rw [ProductionLine.scenarioRow]
  simp [TH_best_ok L _ hT, TH_PWC_ok L _ hden, CT_best_ok L _ hr, CT_PWC_ok L _ hr,
    bind, Except.bind, pure, Except.pure, rowVal, ProductionLine.CT_worst]

/-- When every row succeeds with its `rowVal`, `buildRows` returns the
mapped list. -/
lemma buildRows_eq_map (L : ProductionLine) (tw : ℚ) (l : List ℤ)
    (h : ∀ w ∈ l, L.scenarioRow tw w = .ok (rowVal L tw w)) :
    buildRows L tw l = .ok (l.map (rowVal L tw)) := by
  induction l with
  | nil => rfl
  | cons a as ih =>
      simp [buildRows, h a (List.mem_cons_self a as),
        ih (fun v hv => h v (List.mem_cons_of_mem a hv)), bind, Except.bind,
        pure, Except.pure]

/-- Every WIP level in the swept index is at least 1. -/
lemma one_le_of_mem_wipLevels (m w : ℤ) (hw : w ∈ wipLevels m) : 1 ≤ w := by
  rw [wipLevels] at hw
  rcases List.mem_map.mp hw with ⟨i, -, rfl⟩
  omega

/-- C3: for every valid line and integer `max_wip ≥ 1`, `df_scenarios`
succeeds with exactly `max_wip` rows whose WIP values are the contiguous
ascending sequence `1, 2, ..., max_wip`; each row holds the six formula
evaluations at its WIP level and the worst-case-throughput column is the
constant `1 / T_0`. -/
theorem df_scenarios_table (L : ProductionLine)
    (hW : L.W_0 = L.r_b * L.T_0) (hr : 0 < L.r_b) (hT : 0 < L.T_0)
    (m : ℤ) (hm : 1 ≤ m) :
    ∃ rows, df_scenarios L m = .ok rows ∧
      (rows.length : ℤ) = m ∧
      (∀ i (hi : i < rows.length), (rows.get ⟨i, hi⟩).WIP = 1 + (i : ℤ)) ∧
      (∀ row ∈ rows,
        L.TH_best (row.WIP : ℚ) = .ok row.thBest ∧
        row.thWorst = 1 / L.T_0 ∧
        L.TH_PWC (row.WIP : ℚ) = .ok row.thPWC ∧
        L.CT_best (row.WIP : ℚ) = .ok row.ctBest ∧
        row.ctWorst = L.CT_worst (row.WIP : ℚ) ∧
        L.CT_PWC (row.WIP : ℚ) = .ok row.ctPWC) := by
  have hWpos : 0 < L.W_0 := hW ▸ mul_pos hr hT
  have hden : ∀ w : ℤ, 1 ≤ w → L.W_0 + (w:ℚ) - 1 ≠ 0 := by
    intro w h1
    have : (1:ℚ) ≤ (w:ℚ) := by exact_mod_cast h1
    have : 0 < L.W_0 + (w:ℚ) - 1 := by linarith
    exact ne_of_gt this
  have hsr : ∀ w ∈ wipLevels m, L.scenarioRow (1 / L.T_0) w = .ok (rowVal L (1 / L.T_0) w) :=
    fun w hw => scenarioRow_ok L _ w (ne_of_gt hr) (ne_of_gt hT)
      (hden w (one_le_of_mem_wipLevels m w hw))
  refine ⟨(wipLevels m).map (rowVal L (1 / L.T_0)), ?_, ?_, ?_, ?_⟩
  · rw [df_scenarios, ProductionLine.TH_worst, pydiv_ok _ _ (ne_of_gt hT)]
    simp only [bind, Except.bind]
    exact buildRows_eq_map L _ _ hsr
  · rw [List.length_map]
    rw [wipLevels, List.length_map, List.length_range]
    omega
  · intro i hi
    rw [List.get_eq_getElem, List.getElem_map]
    simp [wipLevels, rowVal]
  · intro row hrow
    rcases List.mem_map.mp hrow with ⟨w, hwmem, rfl⟩
    have h1 : (1:ℤ) ≤ w := one_le_of_mem_wipLevels m w hwmem
    refine ⟨?_, rfl, ?_, ?_, rfl, ?_⟩
    · exact TH_best_ok L _ (ne_of_gt hT)
    · exact TH_PWC_ok L _ (hden w h1)
    · exact CT_best_ok L _ (ne_of_gt hr)
    · exact CT_PWC_ok L _ (ne_of_gt hr)

/-- Witness for C3 at `r_b = 1/2`, `T_0 = 10`, `max_wip = 3`. -/
theorem df_scenarios_table_witness :
    ∃ rows, df_scenarios (ProductionLine.init (1/2) 10 none) 3 = .ok rows ∧
      (rows.length : ℤ) = 3 ∧
      (∀ i (hi : i < rows.length), (rows.get ⟨i, hi⟩).WIP = 1 + (i : ℤ)) ∧
      (∀ row ∈ rows,
        (ProductionLine.init (1/2) 10 none).TH_best (row.WIP : ℚ) = .ok row.thBest ∧
        row.thWorst = 1 / 10 ∧
        (ProductionLine.init (1/2) 10 none).TH_PWC (row.WIP : ℚ) = .ok row.thPWC ∧
        (ProductionLine.init (1/2) 10 none).CT_best (row.WIP : ℚ) = .ok row.ctBest ∧
        row.ctWorst = (ProductionLine.init (1/2) 10 none).CT_worst (row.WIP : ℚ) ∧
        (ProductionLine.init (1/2) 10 none).CT_PWC (row.WIP : ℚ) = .ok row.ctPWC) :=
  df_scenarios_table (ProductionLine.init (1/2) 10 none) rfl
    (by norm_num [ProductionLine.init]) (by norm_num [ProductionLine.init]) 3 (by norm_num)
